import Mathlib

/-!
Verification of the shopping-list application backend and offline client.

Shallow embedding of the JavaScript source:
- JS strings are Lean `String`s; the byte-position based primitives of the JS
  runtime (`trim`, `toLowerCase`, `includes`, global `replace`) are re-implemented
  over the character list `String.data` so that the kernel can evaluate them.
- Database tables are Lean lists of records mirroring `backend/db/schema.js`;
  timestamps are milliseconds since the epoch (`Int`), SQL `NULL` is `Option`.
- Code that can throw (a JS `TypeError`, an unknown queue operation) returns
  `Except`; code whose `try/catch` swallows every error is a total function.
- External effects (the OpenFoodFacts lookup, the LLM reply, the Home Assistant
  call) are injected as explicit arguments.
-/

namespace ShoppingList

/-! ## JS string primitives, re-implemented over character lists -/

/-- `String.prototype.trim` (ASCII whitespace model): drop whitespace from both
ends of the character list. -/
def jsTrimList (l : List Char) : List Char :=
  ((l.dropWhile Char.isWhitespace).reverse.dropWhile Char.isWhitespace).reverse

/-- `s.trim()` for a JS string. -/
def jsTrim (s : String) : String :=
  ⟨jsTrimList s.data⟩

/-- ASCII `toLowerCase` on one character. -/
def jsCharToLower (c : Char) : Char :=
  if 'A' ≤ c ∧ c ≤ 'Z' then Char.ofNat (c.toNat + 32) else c

/-- `s.toLowerCase()` (ASCII model). -/
def jsToLower (s : String) : String :=
  ⟨s.data.map jsCharToLower⟩

/-- Does the character list begin with the given pattern? -/
def beginsWith : List Char → List Char → Bool
  | _, [] => true
  | [], _ :: _ => false
  | c :: cs, d :: ds => c == d && beginsWith cs ds

/-- `hay.includes(needle)` on character lists. -/
def containsSub : List Char → List Char → Bool
  | [], needle => needle.isEmpty
  | c :: cs, needle => beginsWith (c :: cs) needle || containsSub cs needle

/-- `s.includes(sub)` for JS strings. -/
def jsIncludes (s sub : String) : Bool :=
  containsSub s.data sub.data

/-- Global, non-overlapping, left-to-right replacement of `pat` by `rep`;
structural recursion on a fuel bounded by the text length so the kernel can
evaluate it. -/
def replaceAllAux (pat rep : List Char) : Nat → List Char → List Char
  | 0, l => l
  | _ + 1, [] => []
  | fuel + 1, c :: rest =>
    if !pat.isEmpty && beginsWith (c :: rest) pat then
      rep ++ replaceAllAux pat rep fuel (List.drop (pat.length - 1) rest)
    else
      c :: replaceAllAux pat rep fuel rest

/-- The semantics of `String.prototype.replace` with a global pattern, on
character lists. -/
def replaceAllList (pat rep l : List Char) : List Char :=
  replaceAllAux pat rep l.length l

/-- `s.replace(new RegExp(pat, g), rep)` for JS strings. -/
def jsReplaceAll (s pat rep : String) : String :=
  ⟨replaceAllList pat.data rep.data s.data⟩

/-! ## Barcode classifier (`backend/services/barcode.js`, `isBarcode`) -/

/-- A JS value passed to `isBarcode`: either a string, or anything that is not a
string (numbers, `null`, `undefined`, objects), which the
`typeof input !== 'string'` guard rejects. -/
inductive JsInput where
  | str (s : String)
  | nonString
deriving DecidableEq, Repr

/-- `isBarcode(input)` from `backend/services/barcode.js`: falsy or non-string
inputs are rejected, the input is trimmed, and the regex
`^\d{8}$|^\d{12}$|^\d{13}$` is tested (length 8, 12 or 13 and all decimal
digits). -/
def isBarcode (input : JsInput) : Bool :=
  match input with
  | .nonString => false
  | .str s =>
    if s == "" then false
    else
      let cleaned := jsTrim s
      (cleaned.data.length == 8 || cleaned.data.length == 12 || cleaned.data.length == 13)
        && cleaned.data.all Char.isDigit

/-! Auxiliary facts about trimming all-digit strings. -/

theorem dropWhile_eq_self_of_not_head {p : Char → Bool} :
    ∀ l : List Char, (∀ c ∈ l, p c = false) → l.dropWhile p = l := by
  intro l h
  cases l with
  | nil => rfl
  | cons c cs =>
    have hc : p c = false := h c (by simp)
    simp [List.dropWhile, hc]

theorem isWhitespace_eq_false_of_isDigit {c : Char} (h : c.isDigit = true) :
    c.isWhitespace = false := by
  have hrange := h
  simp only [Char.isDigit, decide_eq_true_eq, Bool.and_eq_true] at hrange
  obtain ⟨h1, h2⟩ := hrange
  simp only [Char.isWhitespace, Bool.or_eq_true, decide_eq_true_eq] at *
  by_contra hw
  simp only [Bool.not_eq_false, Bool.or_eq_true, decide_eq_true_eq] at hw
  rcases hw with ((hw | hw) | hw) | hw <;> subst hw <;> revert h1 h2 <;> decide

theorem jsTrimList_of_all_digits {l : List Char} (h : ∀ c ∈ l, c.isDigit = true) :
    jsTrimList l = l := by
  unfold jsTrimList
  have hws : ∀ c ∈ l, c.isWhitespace = false := fun c hc =>
    isWhitespace_eq_false_of_isDigit (h c hc)
  rw [dropWhile_eq_self_of_not_head l hws,
      dropWhile_eq_self_of_not_head l.reverse (fun c hc => hws c (List.mem_reverse.mp hc)),
      List.reverse_reverse]

/-- Claim C8: `isBarcode` classifies an input as a barcode exactly when, after
trimming surrounding whitespace, it is a string of exactly 8, 12 or 13 decimal
digits; strings of 9, 10, 11 or 14 digits, strings containing a non-digit
character, and non-string inputs are all rejected. -/
theorem isBarcode_characterization :
    (∀ s : String, isBarcode (.str s) = true ↔
        (((jsTrim s).data.length = 8 ∨ (jsTrim s).data.length = 12 ∨
            (jsTrim s).data.length = 13) ∧
          ∀ c ∈ (jsTrim s).data, c.isDigit = true)) ∧
    isBarcode .nonString = false ∧
    (∀ s : String, (∀ c ∈ s.data, c.isDigit = true) →
        (s.data.length = 9 ∨ s.data.length = 10 ∨ s.data.length = 11 ∨
          s.data.length = 14) →
        isBarcode (.str s) = false) ∧
    (∀ s : String, (∃ c ∈ (jsTrim s).data, c.isDigit = false) →
        isBarcode (.str s) = false) := by
  have hmain : ∀ s : String, isBarcode (.str s) = true ↔
      (((jsTrim s).data.length = 8 ∨ (jsTrim s).data.length = 12 ∨
          (jsTrim s).data.length = 13) ∧
        ∀ c ∈ (jsTrim s).data, c.isDigit = true) := by
    intro s
    by_cases hs : s = ""
    · subst hs
      constructor
      · intro h
        simp [isBarcode] at h
      · rintro ⟨hlen, -⟩
        exfalso
        have htr : jsTrim "" = "" := by decide
        rw [htr] at hlen
        simp at hlen
    · have hbeq : (s == "") = false := by
        simp [beq_eq_false_iff_ne, hs]
      simp [isBarcode, hbeq, List.all_eq_true]
      tauto
  refine ⟨hmain, by decide, ?_, ?_⟩
  · intro s hdig hlen
    have htrim : jsTrim s = s := by
      unfold jsTrim
      have := jsTrimList_of_all_digits hdig
      cases s with
      | mk data => simp only [this]
    by_contra hcontra
    simp only [Bool.not_eq_false] at hcontra
    obtain ⟨hl, _⟩ := (hmain s).mp hcontra
    rw [htrim] at hl
    omega
  · intro s ⟨c, hc, hcd⟩
    by_contra hcontra
    simp only [Bool.not_eq_false] at hcontra
    obtain ⟨_, hall⟩ := (hmain s).mp hcontra
    rw [hall c hc] at hcd
    exact Bool.noConfusion hcd

/-! ## Data model (`backend/db/schema.js`) -/

/-- A row of the `categories` table. -/
structure Category where
  id : Nat
  name : String
  sortOrder : Int
  createdAt : Int
deriving DecidableEq, Repr

/-- A row of the `items` table. -/
structure Item where
  id : Nat
  name : String
  quantity : Option String
  notes : Option String
  relatedTo : Option String
  categoryId : Option Nat
  isCompleted : Bool
  isProcessing : Bool
  completedAt : Option Int
  sortOrder : Int
  addedBy : Option Nat
  barcode : Option String
  wasScanned : Bool
  createdAt : Int
  updatedAt : Int
deriving DecidableEq, Repr

/-- A row of the `devices` table. -/
structure Device where
  id : Nat
  deviceId : String
  friendlyName : Option String
  deviceType : String
  authToken : String
  isApproved : Bool
  haSpeakerEntity : Option String
  usbDevicePath : Option String
  lastSeen : Option Int
  status : String
  createdAt : Int
deriving DecidableEq, Repr

/-- A row of the `device_events` table; `metadata` is the serialized JSON text
(`JSON.stringify` is modelled as an opaque payload string). -/
structure DeviceEvent where
  id : Nat
  deviceId : Nat
  eventType : String
  message : String
  metadata : Option String
  createdAt : Int
deriving DecidableEq, Repr

/-- A row of the `tts_phrases` table. -/
structure TtsPhrase where
  id : Nat
  phraseKey : String
  template : String
  createdAt : Int
deriving DecidableEq, Repr

/-! ## Scheduled cleanup (`backend/services/cleanup.js`) -/

/-- The delete issued by `cleanupCompletedItems`: remove every item with
`isCompleted = true` and `completedAt < now - 24h`; the survivors remain.
Times are milliseconds. A SQL comparison with a NULL `completedAt` is not
satisfied, so such rows survive. -/
def cleanupCompletedItems (now : Int) (db : List Item) : List Item :=
  let twentyFourHoursAgo := now - 24 * 60 * 60 * 1000
  db.filter fun it =>
    !(it.isCompleted &&
      (match it.completedAt with
       | some t => decide (t < twentyFourHoursAgo)
       | none => false))

/-- The `try/catch` wrapper of `cleanupCompletedItems`: a database failure
(`dbFault`) is caught and logged, the function returns normally either way and
never propagates the error (the return type is a plain list, not `Except`). -/
def cleanupCompletedItemsRun (now : Int) (dbFault : Bool) (db : List Item) : List Item :=
  if dbFault then db else cleanupCompletedItems now db

/-- Claim C4: a cleanup sweep deletes exactly the items with `isCompleted = true`
and `completedAt` more than 24 hours before the sweep time; an item completed 23
hours ago survives, one completed 25 hours ago is deleted, an incomplete item is
never deleted, and a failing sweep is caught rather than propagated. -/
theorem cleanupCompletedItems_characterization :
    (∀ (now : Int) (db : List Item) (it : Item),
        it ∈ cleanupCompletedItems now db ↔
          it ∈ db ∧
            ¬(it.isCompleted = true ∧
              ∃ t, it.completedAt = some t ∧ t < now - 24 * 60 * 60 * 1000)) ∧
    (∀ (now : Int) (db : List Item) (it : Item),
        it ∈ db → it.isCompleted = false → it ∈ cleanupCompletedItems now db) ∧
    (∀ (now : Int) (db : List Item) (it : Item),
        it ∈ db → it.isCompleted = true →
        it.completedAt = some (now - 23 * 60 * 60 * 1000) →
        it ∈ cleanupCompletedItems now db) ∧
    (∀ (now : Int) (db : List Item) (it : Item),
        it.isCompleted = true →
        it.completedAt = some (now - 25 * 60 * 60 * 1000) →
        it ∉ cleanupCompletedItems now db) ∧
    (∀ (now : Int) (db : List Item), cleanupCompletedItemsRun now true db = db) := by
  have hmain : ∀ (now : Int) (db : List Item) (it : Item),
      it ∈ cleanupCompletedItems now db ↔
        it ∈ db ∧
          ¬(it.isCompleted = true ∧
            ∃ t, it.completedAt = some t ∧ t < now - 24 * 60 * 60 * 1000) := by
    intro now db it
    simp only [cleanupCompletedItems, List.mem_filter, Bool.not_eq_true',
      Bool.and_eq_false_iff]
    constructor
    · rintro ⟨hmem, hcond⟩
      refine ⟨hmem, ?_⟩
      rintro ⟨hc, t, ht, hlt⟩
      rcases hcond with hc' | hm
      · rw [hc] at hc'; exact Bool.noConfusion hc'
      · rw [ht] at hm
        simp only [decide_eq_false_iff_not] at hm
        exact hm hlt
    · rintro ⟨hmem, hnot⟩
      refine ⟨hmem, ?_⟩
      by_cases hc : it.isCompleted = true
      · right
        cases hct : it.completedAt with
        | none => simp
        | some t =>
          simp only [decide_eq_false_iff_not]
          intro hlt
          exact hnot ⟨hc, t, hct, hlt⟩
      · left
        exact Bool.not_eq_true _ ▸ (Bool.eq_false_iff.mpr hc)
  refine ⟨hmain, ?_, ?_, ?_, fun _ _ => rfl⟩
  · intro now db it hmem hinc
    refine (hmain now db it).mpr ⟨hmem, ?_⟩
    rintro ⟨hc, -⟩
    rw [hinc] at hc
    exact Bool.noConfusion hc
  · intro now db it hmem hc hct
    refine (hmain now db it).mpr ⟨hmem, ?_⟩
    rintro ⟨-, t, ht, hlt⟩
    rw [hct] at ht
    injection ht with ht'
    omega
  · intro now db it hc hct hmem
    obtain ⟨-, hnot⟩ := (hmain now db it).mp hmem
    exact hnot ⟨hc, _, hct, by omega⟩

/-! ## Category deletion (`backend/routes/categories.js`, `DELETE /:id`) -/

/-- `DELETE /categories/:id`: first query one item with `categoryId = id`; if one
exists, answer 400 and leave the table untouched; otherwise delete the row and
answer 200, or 404 when no row matched. Returns the HTTP status and the
resulting `categories` table. -/
def deleteCategoryRoute (catId : Nat) (cats : List Category) (its : List Item) :
    Nat × List Category :=
  if its.any (fun it => it.categoryId == some catId) then
    (400, cats)
  else
    let remaining := cats.filter fun c => !(c.id == catId)
    if remaining.length == cats.length then (404, remaining) else (200, remaining)

/-- Claim C5: deleting a category fails with a 400 and leaves the category in
place exactly when at least one item references it; when no item references an
existing category, the delete succeeds with a 200, removes exactly that row, and
afterwards no item references a category id that is absent. -/
theorem deleteCategoryRoute_characterization (catId : Nat) (cats : List Category)
    (its : List Item) :
    ((deleteCategoryRoute catId cats its).1 = 400 ↔
        ∃ it ∈ its, it.categoryId = some catId) ∧
    ((deleteCategoryRoute catId cats its).1 = 400 →
        (deleteCategoryRoute catId cats its).2 = cats) ∧
    ((∀ it ∈ its, it.categoryId ≠ some catId) → (∃ c ∈ cats, c.id = catId) →
        (deleteCategoryRoute catId cats its).1 = 200 ∧
        (∀ c ∈ (deleteCategoryRoute catId cats its).2, c.id ≠ catId) ∧
        (∀ c ∈ cats, c.id ≠ catId → c ∈ (deleteCategoryRoute catId cats its).2)) := by
  by_cases href : its.any (fun it => it.categoryId == some catId)
  · have h400 : deleteCategoryRoute catId cats its = (400, cats) := by
      simp [deleteCategoryRoute, href]
    rw [h400]
    simp only [List.any_eq_true, beq_iff_eq] at href
    refine ⟨⟨fun _ => href, fun _ => rfl⟩, fun _ => rfl, ?_⟩
    intro hnone _
    obtain ⟨it, hit, heq⟩ := href
    exact absurd heq (hnone it hit)
  · have hno : ∀ it ∈ its, it.categoryId ≠ some catId := by
      simp only [List.any_eq_true, beq_iff_eq, not_exists] at href
      intro it hit heq
      exact href it ⟨hit, heq⟩
    have hrefFalse : its.any (fun it => it.categoryId == some catId) = false := by
      exact Bool.eq_false_iff.mpr href
    constructor
    · constructor
      · intro h400
        exfalso
        simp only [deleteCategoryRoute, hrefFalse, Bool.false_eq_true, if_false] at h400
        by_cases hlen : (cats.filter fun c => !(c.id == catId)).length == cats.length <;>
          simp [hlen] at h400
      · rintro ⟨it, hit, heq⟩
        exact absurd heq (hno it hit)
    · constructor
      · intro h400
        exfalso
        simp only [deleteCategoryRoute, hrefFalse, Bool.false_eq_true, if_false] at h400
        by_cases hlen : (cats.filter fun c => !(c.id == catId)).length == cats.length <;>
          simp [hlen] at h400
      · intro _ hex
        have hlen : ((cats.filter fun c => !(c.id == catId)).length == cats.length) = false := by
          obtain ⟨c, hc, hcid⟩ := hex
          simp only [beq_eq_false_iff_ne]
          intro hleneq
          have hsub : (cats.filter fun c => !(c.id == catId)).Sublist cats :=
            List.filter_sublist _
          have heqfc := hsub.eq_of_length hleneq
          have hcmem : c ∈ cats.filter fun c => !(c.id == catId) := by
            rw [heqfc]; exact hc
          have hp := List.of_mem_filter hcmem
          simp [hcid] at hp
        have hres : deleteCategoryRoute catId cats its =
            (200, cats.filter fun c => !(c.id == catId)) := by
          simp [deleteCategoryRoute, hrefFalse, hlen]
        rw [hres]
        refine ⟨rfl, ?_, ?_⟩
        · intro c hc
          have := List.of_mem_filter hc
          simpa using this
        · intro c hc hcid
          exact List.mem_filter.mpr ⟨hc, by simp [hcid]⟩

/-! ## Offline queue replay (`frontend/src/lib/queueManager.js`) -/

/-- The payload of one queued offline operation (IndexedDB record): its `type`
discriminator string, the item id, the opaque `data` body for add/update, and
the captured `targetState` of a set-complete operation. -/
structure QueueOperation where
  type : String
  id : Nat
  data : Option String
  targetState : Option Bool
deriving DecidableEq, Repr

/-- The API call a replayed operation issues. -/
inductive ApiRequest where
  | addItem (data : Option String)
  | updateItem (id : Nat) (data : Option String)
  | toggleItemComplete (id : Nat)
  | deleteItem (id : Nat)
deriving DecidableEq, Repr

/-- `QueueManager.executeOperation(op)`: the switch over `op.type` in
`queueManager.js`; its cases are `add`, `update`, `toggle` and `delete`, and the
default branch throws `Unknown operation type`. -/
def executeOperation (op : QueueOperation) : Except String ApiRequest :=
  if op.type == "add" then .ok (.addItem op.data)
  else if op.type == "update" then .ok (.updateItem op.id op.data)
  else if op.type == "toggle" then .ok (.toggleItemComplete op.id)
  else if op.type == "delete" then .ok (.deleteItem op.id)
  else .error ("Unknown operation type: " ++ op.type)

/-- The operation queued by `toggleCompleteMutation` (`DeviceEvents.jsx`) when
the toggle API call fails with a network error: the *target* boolean state is
captured at optimistic-apply time (`!currentItem.isCompleted`, or `true` when
the item is not in the cached list) and a `setComplete` operation carrying it is
stored. -/
def toggleCompleteQueuedOp (id : Nat) (currentItem : Option Bool) : QueueOperation :=
  { type := "setComplete"
    id := id
    data := none
    targetState := some (match currentItem with
                         | some isCompleted => !isCompleted
                         | none => true) }

/-- Claim C2 (bug evaluation): the client does queue a `setComplete` operation
carrying the captured target state, but replaying it can never reach the server:
`executeOperation` has no `setComplete` case and throws
`Unknown operation type: setComplete` for every such operation, so the replay
never applies the captured state. -/
theorem executeOperation_setComplete_unknown :
    (∀ (id : Nat) (cur : Option Bool),
        (toggleCompleteQueuedOp id cur).targetState =
          some (match cur with | some b => !b | none => true) ∧
        executeOperation (toggleCompleteQueuedOp id cur) =
          .error "Unknown operation type: setComplete") ∧
    executeOperation (toggleCompleteQueuedOp 1 (some false)) =
      .error "Unknown operation type: setComplete" := by
  exact ⟨fun id cur => ⟨rfl, rfl⟩, rfl⟩

/-! ## Device self-registration (`backend/routes/devices.js`, `POST /register`) -/

/-- The JSON body answered by `POST /devices/register`. -/
structure RegisterResponse where
  httpStatus : Nat
  authToken : Option String
  status : Option String
  deviceIdEcho : Option String
deriving DecidableEq, Repr

/-- `POST /devices/register`: missing `device_id` is a 400; an existing device
is answered with its stored token and current approval status and the table is
untouched; otherwise a device row is created with the freshly generated token,
`isApproved = false` and `status = "pending"`, answered with a 201. -/
def registerDevice (deviceIdParam : Option String) (freshToken : String)
    (nextId : Nat) (now : Int) (devs : List Device) :
    RegisterResponse × List Device :=
  match deviceIdParam with
  | none => ({ httpStatus := 400, authToken := none, status := none, deviceIdEcho := none }, devs)
  | some did =>
    match devs.find? (fun d => d.deviceId == did) with
    | some existing =>
      ({ httpStatus := 200
         authToken := some existing.authToken
         status := some (if existing.isApproved then "approved" else "pending_approval")
         deviceIdEcho := some existing.deviceId }, devs)
    | none =>
      let newDevice : Device :=
        { id := nextId, deviceId := did, friendlyName := none
          deviceType := "barcode_scanner", authToken := freshToken
          isApproved := false, haSpeakerEntity := none, usbDevicePath := none
          lastSeen := some now, status := "pending", createdAt := now }
      ({ httpStatus := 201
         authToken := some freshToken
         status := some "pending_approval"
         deviceIdEcho := some did }, devs ++ [newDevice])

theorem find?_append_none {p : Device → Bool} {l₁ l₂ : List Device}
    (h : l₁.find? p = none) : (l₁ ++ l₂).find? p = l₂.find? p := by
  induction l₁ with
  | nil => rfl
  | cons d ds ih =>
    by_cases hd : p d
    · simp [List.find?, hd] at h
    · have hd' : p d = false := Bool.eq_false_iff.mpr hd
      simp only [List.find?, hd'] at h
      simp only [List.cons_append, List.find?, hd']
      exact ih h

/-- Claim C6: `POST /devices/register` is idempotent in `deviceId`: a second
registration of the same `deviceId` returns the same `authToken` as the first
together with the current approval status, and creates no second row; a first
registration of an unknown `deviceId` creates exactly one row with
`isApproved = false` and `status = "pending"`. -/
theorem registerDevice_idempotent (did : String) (tok1 tok2 : String)
    (id1 id2 : Nat) (t1 t2 : Int) (devs : List Device) :
    (registerDevice (some did) tok2 id2 t2
        (registerDevice (some did) tok1 id1 t1 devs).2).1.authToken =
      (registerDevice (some did) tok1 id1 t1 devs).1.authToken ∧
    (registerDevice (some did) tok2 id2 t2
        (registerDevice (some did) tok1 id1 t1 devs).2).2 =
      (registerDevice (some did) tok1 id1 t1 devs).2 ∧
    (∃ d, (registerDevice (some did) tok1 id1 t1 devs).2.find?
            (fun d => d.deviceId == did) = some d ∧
        (registerDevice (some did) tok2 id2 t2
            (registerDevice (some did) tok1 id1 t1 devs).2).1.status =
          some (if d.isApproved then "approved" else "pending_approval")) ∧
    (devs.find? (fun d => d.deviceId == did) = none →
        (registerDevice (some did) tok1 id1 t1 devs).2 =
          devs ++ [{ id := id1, deviceId := did, friendlyName := none
                     deviceType := "barcode_scanner", authToken := tok1
                     isApproved := false, haSpeakerEntity := none
                     usbDevicePath := none, lastSeen := some t1
                     status := "pending", createdAt := t1 }] ∧
        (registerDevice (some did) tok1 id1 t1 devs).1.authToken = some tok1 ∧
        (registerDevice (some did) tok1 id1 t1 devs).1.httpStatus = 201) := by
  cases hfind : devs.find? (fun d => d.deviceId == did) with
  | some existing =>
    have h1 : registerDevice (some did) tok1 id1 t1 devs =
        ({ httpStatus := 200, authToken := some existing.authToken
           status := some (if existing.isApproved then "approved" else "pending_approval")
           deviceIdEcho := some existing.deviceId }, devs) := by
      simp [registerDevice, hfind]
    rw [h1]
    have h2 : registerDevice (some did) tok2 id2 t2 devs =
        ({ httpStatus := 200, authToken := some existing.authToken
           status := some (if existing.isApproved then "approved" else "pending_approval")
           deviceIdEcho := some existing.deviceId }, devs) := by
      simp [registerDevice, hfind]
    rw [h2]
    refine ⟨rfl, rfl, ⟨existing, hfind, rfl⟩, ?_⟩
    intro hnone
    exact Option.noConfusion hnone
  | none =>
    have hnewfind :
        (devs ++ [{ id := id1, deviceId := did, friendlyName := none
                    deviceType := "barcode_scanner", authToken := tok1
                    isApproved := false, haSpeakerEntity := none
                    usbDevicePath := none, lastSeen := some t1
                    status := "pending", createdAt := t1 : Device }]).find?
          (fun d => d.deviceId == did) =
          some { id := id1, deviceId := did, friendlyName := none
                 deviceType := "barcode_scanner", authToken := tok1
                 isApproved := false, haSpeakerEntity := none
                 usbDevicePath := none, lastSeen := some t1
                 status := "pending", createdAt := t1 } := by
      rw [find?_append_none hfind]
      simp [List.find?]
    have h1 : registerDevice (some did) tok1 id1 t1 devs =
        ({ httpStatus := 201, authToken := some tok1
           status := some "pending_approval", deviceIdEcho := some did },
         devs ++ [{ id := id1, deviceId := did, friendlyName := none
                    deviceType := "barcode_scanner", authToken := tok1
                    isApproved := false, haSpeakerEntity := none
                    usbDevicePath := none, lastSeen := some t1
                    status := "pending", createdAt := t1 }]) := by
      simp [registerDevice, hfind]
    rw [h1]
    have h2 : registerDevice (some did) tok2 id2 t2
        (devs ++ [{ id := id1, deviceId := did, friendlyName := none
                    deviceType := "barcode_scanner", authToken := tok1
                    isApproved := false, haSpeakerEntity := none
                    usbDevicePath := none, lastSeen := some t1
                    status := "pending", createdAt := t1 }]) =
        ({ httpStatus := 200, authToken := some tok1
           status := some "pending_approval", deviceIdEcho := some did },
         devs ++ [{ id := id1, deviceId := did, friendlyName := none
                    deviceType := "barcode_scanner", authToken := tok1
                    isApproved := false, haSpeakerEntity := none
                    usbDevicePath := none, lastSeen := some t1
                    status := "pending", createdAt := t1 }]) := by
      simp [registerDevice, hnewfind]
    rw [h2]
    exact ⟨rfl, rfl, ⟨_, hnewfind, rfl⟩, fun _ => ⟨rfl, rfl, rfl⟩⟩

/-- Witness for C6 at a concrete input: a fresh registration followed by a
re-registration of the same `deviceId`. -/
theorem registerDevice_idempotent_witness :
    (registerDevice (some "pi-kitchen") "tokB" 2 5
        (registerDevice (some "pi-kitchen") "tokA" 1 3 []).2).1.authToken =
      (registerDevice (some "pi-kitchen") "tokA" 1 3 []).1.authToken ∧
    (registerDevice (some "pi-kitchen") "tokA" 1 3 []).1.authToken = some "tokA" ∧
    (registerDevice (some "pi-kitchen") "tokB" 2 5
        (registerDevice (some "pi-kitchen") "tokA" 1 3 []).2).2 =
      (registerDevice (some "pi-kitchen") "tokA" 1 3 []).2 := by
  have h := registerDevice_idempotent "pi-kitchen" "tokA" "tokB" 1 2 3 5 []
  exact ⟨h.1, (h.2.2.2 rfl).2.1, h.2.1⟩

/-! ## Completion toggling (`backend/routes/items.js`, `PATCH /:id/complete`) -/

/-- `PATCH /items/:id/complete`: load the item, 404 when absent; otherwise flip
`isCompleted`, set `completedAt` to the current time when completing and to NULL
when un-completing, touch `updatedAt`, and answer with the updated row. Returns
the answered row (`none` for a 404) and the new table. -/
def toggleComplete (now : Int) (itemId : Nat) (db : List Item) :
    Option Item × List Item :=
  match db.find? (fun it => it.id == itemId) with
  | none => (none, db)
  | some currentItem =>
    let newStatus := !currentItem.isCompleted
    let upd : Item → Item := fun it =>
      { it with isCompleted := newStatus
                completedAt := if newStatus then some now else none
                updatedAt := now }
    (some (upd currentItem), db.map fun it => if it.id == itemId then upd it else it)

theorem find?_map_update {itemId : Nat} {db : List Item} {cur : Item}
    (f : Item → Item) (hid : ∀ it, (f it).id = it.id)
    (h : db.find? (fun it => it.id == itemId) = some cur) :
    (db.map fun it => if it.id == itemId then f it else it).find?
        (fun it => it.id == itemId) = some (f cur) := by
  induction db with
  | nil => simp [List.find?] at h
  | cons a l ih =>
    by_cases ha : a.id == itemId
    · simp only [List.find?, ha] at h
      injection h with h'
      subst h'
      simp only [List.map_cons, ha, if_true, List.find?]
      have : ((f a).id == itemId) = true := by
        rw [hid a]; exact ha
      simp [this]
    · have ha' : (a.id == itemId) = false := Bool.eq_false_iff.mpr ha
      simp only [List.find?, ha'] at h
      simp only [List.map_cons, ha', Bool.false_eq_true, if_false, List.find?]
      exact ih h

theorem toggleComplete_eq (now : Int) {itemId : Nat} {db : List Item} {cur : Item}
    (h : db.find? (fun it => it.id == itemId) = some cur) :
    toggleComplete now itemId db =
      (some { cur with isCompleted := !cur.isCompleted
                       completedAt := if !cur.isCompleted then some now else none
                       updatedAt := now },
       db.map fun it => if it.id == itemId then
         { it with isCompleted := !cur.isCompleted
                   completedAt := if !cur.isCompleted then some now else none
                   updatedAt := now } else it) := by
  unfold toggleComplete
  rw [h]

/-- Claim C10: toggling completion twice in succession with no interleaving
mutation restores `isCompleted` to its original value; an initially incomplete
item ends incomplete with `completedAt = NULL`. -/
theorem toggleComplete_twice (now1 now2 : Int) (itemId : Nat) (db : List Item)
    (cur : Item) (hfind : db.find? (fun it => it.id == itemId) = some cur) :
    ∃ fin,
      (toggleComplete now2 itemId (toggleComplete now1 itemId db).2).1 = some fin ∧
      fin.isCompleted = cur.isCompleted ∧
      (cur.isCompleted = false → fin.isCompleted = false ∧ fin.completedAt = none) := by
  have h1 := toggleComplete_eq now1 hfind
  have hfind2 : (toggleComplete now1 itemId db).2.find? (fun it => it.id == itemId) =
      some { cur with isCompleted := !cur.isCompleted
                      completedAt := if !cur.isCompleted then some now1 else none
                      updatedAt := now1 } := by
    rw [h1]
    exact find?_map_update _ (fun it => rfl) hfind
  have h2 := toggleComplete_eq now2 hfind2
  refine ⟨_, by rw [h2], ?_, ?_⟩
  · simp [Bool.not_not]
  · intro hinc
    simp [hinc]

/-- Witness for C10: a concrete initially incomplete item, toggled twice. -/
theorem toggleComplete_twice_witness :
    ∃ fin,
      (toggleComplete 2000 7 (toggleComplete 1000 7
          [{ id := 7, name := "Milk", quantity := none, notes := none
             relatedTo := none, categoryId := none, isCompleted := false
             isProcessing := false, completedAt := none, sortOrder := 0
             addedBy := none, barcode := none, wasScanned := false
             createdAt := 0, updatedAt := 0 }]).2).1 = some fin ∧
      fin.isCompleted = false ∧
      fin.completedAt = none := by
  obtain ⟨fin, hfin, hflag, himp⟩ := toggleComplete_twice 1000 2000 7
    [{ id := 7, name := "Milk", quantity := none, notes := none
       relatedTo := none, categoryId := none, isCompleted := false
       isProcessing := false, completedAt := none, sortOrder := 0
       addedBy := none, barcode := none, wasScanned := false
       createdAt := 0, updatedAt := 0 }]
    { id := 7, name := "Milk", quantity := none, notes := none
      relatedTo := none, categoryId := none, isCompleted := false
      isProcessing := false, completedAt := none, sortOrder := 0
      addedBy := none, barcode := none, wasScanned := false
      createdAt := 0, updatedAt := 0 }
    (by rfl)
  obtain ⟨hflag0, hnone⟩ := himp rfl
  exact ⟨fin, hfin, hflag0, hnone⟩

/-! ## Bulk add (`backend/routes/items.js`, `POST /bulk-add`) -/

/-- The response of `POST /items/bulk-add` (HTTP status and `itemsAdded`). -/
structure BulkAddResponse where
  status : Nat
  itemsAdded : Nat
deriving DecidableEq, Repr

/-- The validity filter of bulk-add: `typeof text === 'string' &&
text.trim().length > 0`. An entry is `none` when the submitted JSON value is not
a string. -/
def isValidEntry : Option String → Bool
  | some s => decide (0 < (jsTrim s).data.length)
  | none => false

/-- `validItemTexts`: the submitted array with non-string and blank entries
filtered out. -/
def validEntries (raw : List (Option String)) : List String :=
  (raw.filter isValidEntry).filterMap fun t => t

/-- The item row inserted for one valid bulk-add line: `name` is the trimmed
text, `isProcessing` mirrors the Ollama toggle, `relatedTo`/`categoryId` come
from the request body. -/
def mkBulkItem (userId : Nat) (relatedTo : Option String) (categoryId : Option Nat)
    (ollamaEnabled : Bool) (now : Int) (id : Nat) (text : String) : Item :=
  { id := id, name := jsTrim text, quantity := none, notes := none
    relatedTo := relatedTo, categoryId := categoryId, isCompleted := false
    isProcessing := ollamaEnabled, completedAt := none, sortOrder := 0
    addedBy := some userId, barcode := none, wasScanned := false
    createdAt := now, updatedAt := now }

/-- `POST /items/bulk-add`: reject with 400 when the body is not an array or the
array is empty, when the *raw* array has more than 50 entries (this check runs
before the validity filter), or when no valid entry remains; otherwise insert
one row per valid entry and answer 201. -/
def bulkAddRoute (itemTexts : Option (List (Option String))) (relatedTo : Option String)
    (categoryId : Option Nat) (ollamaEnabled : Bool) (userId : Nat) (nextId : Nat)
    (now : Int) (db : List Item) : BulkAddResponse × List Item :=
  match itemTexts with
  | none => ({ status := 400, itemsAdded := 0 }, db)
  | some raw =>
    if raw.length == 0 then ({ status := 400, itemsAdded := 0 }, db)
    else if decide (50 < raw.length) then ({ status := 400, itemsAdded := 0 }, db)
    else
      let valid := validEntries raw
      if valid.length == 0 then ({ status := 400, itemsAdded := 0 }, db)
      else
        ({ status := 201, itemsAdded := valid.length },
         db ++ (valid.enum.map fun p =>
           mkBulkItem userId relatedTo categoryId ollamaEnabled now (nextId + p.1) p.2))

/-- Counterexample to C3 as stated: an array of 50 valid lines plus one blank
line has 50 entries after filtering (within the stated bound, with valid
entries remaining), yet the route rejects it with a 400 and creates nothing,
because the 50-entry cap is applied to the raw array before filtering. -/
theorem bulkAddRoute_cap_before_filter :
    (validEntries (List.replicate 50 (some "milk") ++ [some " "])).length = 50 ∧
    validEntries (List.replicate 50 (some "milk") ++ [some " "]) ≠ [] ∧
    (bulkAddRoute (some (List.replicate 50 (some "milk") ++ [some " "]))
        none none false 1 1 0 []).1.status = 400 ∧
    (bulkAddRoute (some (List.replicate 50 (some "milk") ++ [some " "]))
        none none false 1 1 0 []).2 = [] := by
  refine ⟨?_, ?_, ?_, ?_⟩ <;> decide

/-- Claim C3 (amended): `POST /items/bulk-add` rejects with a 400 exactly when
the submitted array is missing/empty, when the raw array exceeds 50 entries
(counted before filtering out non-string/blank entries), or when no valid entry
remains after filtering; a rejected request creates no item, and otherwise the
route answers 201 and creates exactly one item per remaining valid entry. -/
theorem bulkAddRoute_characterization (raw : List (Option String))
    (relatedTo : Option String) (categoryId : Option Nat) (ollamaEnabled : Bool)
    (userId nextId : Nat) (now : Int) (db : List Item) :
    ((bulkAddRoute (some raw) relatedTo categoryId ollamaEnabled userId nextId now db).1.status = 400 ↔
        (raw = [] ∨ 50 < raw.length ∨ validEntries raw = [])) ∧
    ((bulkAddRoute (some raw) relatedTo categoryId ollamaEnabled userId nextId now db).1.status = 400 →
        (bulkAddRoute (some raw) relatedTo categoryId ollamaEnabled userId nextId now db).2 = db) ∧
    (¬(raw = [] ∨ 50 < raw.length ∨ validEntries raw = []) →
        (bulkAddRoute (some raw) relatedTo categoryId ollamaEnabled userId nextId now db).1.status = 201 ∧
        (bulkAddRoute (some raw) relatedTo categoryId ollamaEnabled userId nextId now db).1.itemsAdded =
          (validEntries raw).length ∧
        (bulkAddRoute (some raw) relatedTo categoryId ollamaEnabled userId nextId now db).2.length =
          db.length + (validEntries raw).length) ∧
    bulkAddRoute none relatedTo categoryId ollamaEnabled userId nextId now db =
      ({ status := 400, itemsAdded := 0 }, db) := by
  by_cases hempty : raw = []
  · subst hempty
    have hres : bulkAddRoute (some []) relatedTo categoryId ollamaEnabled userId nextId now db =
        ({ status := 400, itemsAdded := 0 }, db) := by
      simp [bulkAddRoute]
    rw [hres]
    exact ⟨⟨fun _ => Or.inl rfl, fun _ => rfl⟩, fun _ => rfl,
      fun hcon => absurd (Or.inl rfl) hcon, rfl⟩
  · by_cases hbig : 50 < raw.length
    · have hres : bulkAddRoute (some raw) relatedTo categoryId ollamaEnabled userId nextId now db =
          ({ status := 400, itemsAdded := 0 }, db) := by
        have hne : (raw.length == 0) = false := by
          simp only [beq_eq_false_iff_ne, ne_eq, List.length_eq_zero]
          exact hempty
        simp [bulkAddRoute, hne, hbig]
      rw [hres]
      exact ⟨⟨fun _ => Or.inr (Or.inl hbig), fun _ => rfl⟩, fun _ => rfl,
        fun hcon => absurd (Or.inr (Or.inl hbig)) hcon, rfl⟩
    · by_cases hvalid : validEntries raw = []
      · have hres : bulkAddRoute (some raw) relatedTo categoryId ollamaEnabled userId nextId now db =
            ({ status := 400, itemsAdded := 0 }, db) := by
          have hne : (raw.length == 0) = false := by
            simp only [beq_eq_false_iff_ne, ne_eq, List.length_eq_zero]
            exact hempty
          simp [bulkAddRoute, hne, hbig, hvalid]
        rw [hres]
        exact ⟨⟨fun _ => Or.inr (Or.inr hvalid), fun _ => rfl⟩, fun _ => rfl,
          fun hcon => absurd (Or.inr (Or.inr hvalid)) hcon, rfl⟩
      · have hres : bulkAddRoute (some raw) relatedTo categoryId ollamaEnabled userId nextId now db =
            ({ status := 201, itemsAdded := (validEntries raw).length },
             db ++ ((validEntries raw).enum.map fun p =>
               mkBulkItem userId relatedTo categoryId ollamaEnabled now (nextId + p.1) p.2)) := by
          have hne : (raw.length == 0) = false := by
            simp only [beq_eq_false_iff_ne, ne_eq, List.length_eq_zero]
            exact hempty
          have hvne : ((validEntries raw).length == 0) = false := by
            simp only [beq_eq_false_iff_ne, ne_eq, List.length_eq_zero]
            exact hvalid
          simp [bulkAddRoute, hne, hbig, hvne]
        rw [hres]
        refine ⟨⟨fun habs => absurd habs (by simp), ?_⟩, fun habs => absurd habs (by simp),
          fun _ => ⟨rfl, rfl, ?_⟩, rfl⟩
        · rintro (h | h | h)
          · exact absurd h hempty
          · exact absurd h hbig
          · exact absurd h hvalid
        · simp [List.length_append, List.length_map, List.enum_length]

/-- Witness for C3 (amended) at a concrete input: two valid lines are accepted
and create exactly two items; an over-long raw array is rejected leaving the
table unchanged. -/
theorem bulkAddRoute_characterization_witness :
    (bulkAddRoute (some [some "milk", some "bread"]) none none false 1 1 0 []).1.status = 201 ∧
    (bulkAddRoute (some [some "milk", some "bread"]) none none false 1 1 0 []).1.itemsAdded = 2 ∧
    (bulkAddRoute (some [some "milk", some "bread"]) none none false 1 1 0 []).2.length = 2 ∧
    (bulkAddRoute (some (List.replicate 51 (some "milk"))) none none false 1 1 0 []).1.status = 400 ∧
    (bulkAddRoute (some (List.replicate 51 (some "milk"))) none none false 1 1 0 []).2 = [] := by
  have h1 := bulkAddRoute_characterization [some "milk", some "bread"] none none false 1 1 0 []
  have h2 := bulkAddRoute_characterization (List.replicate 51 (some "milk")) none none false 1 1 0 []
  obtain ⟨hs, hia, hlen⟩ := h1.2.2.1 (by decide)
  have h400 : (bulkAddRoute (some (List.replicate 51 (some "milk"))) none none false 1 1 0 []).1.status = 400 :=
    h2.1.mpr (Or.inr (Or.inl (by decide)))
  exact ⟨hs, by rw [hia]; decide, by rw [hlen]; decide, h400, h2.2.1 h400⟩

/-! ## TTS announcement (`backend/services/tts.js`) -/

/-- The `result` argument of `announceBarcodeResult`: the outcome of a barcode
scan. -/
structure ScanOutcome where
  success : Bool
  item : Option Item
  error : Option String
deriving DecidableEq, Repr

/-- The value returned by `announceBarcodeResult`. -/
structure AnnounceResult where
  announced : Bool
  message : Option String
  error : Option String
deriving DecidableEq, Repr

/-- `replacePlaceholders(template, variables)`: every `\x7b\x7bkey\x7d\x7d`
placeholder is replaced globally by its variable's value. -/
def replacePlaceholders (template : String) (vars : List (String × String)) : String :=
  vars.foldl
    (fun r kv => jsReplaceAll r ("\x7b\x7b" ++ kv.1 ++ "\x7d\x7d") kv.2)
    template

/-- The phrase key chosen by `announceBarcodeResult`: `success` when the scan
succeeded with an item, `not_found` when it failed and the error text contains
`not found`, `error` otherwise. -/
def selectPhraseKey (res : ScanOutcome) : String :=
  if res.success && !res.item.isNone then "success"
  else if !res.success &&
      (match res.error with
       | some e => jsIncludes e "not found"
       | none => false) then "not_found"
  else "error"

/-- The substitution variables chosen by `announceBarcodeResult`: `itemName` on
a success, none otherwise. -/
def selectVariables (res : ScanOutcome) : List (String × String) :=
  if res.success && !res.item.isNone then
    match res.item with
    | some it => [("itemName", it.name)]
    | none => []
  else []

/-- `getTTSPhrase(phraseKey)`: look the template up in `tts_phrases`. -/
def getTTSPhrase (phrases : List TtsPhrase) (phraseKey : String) : Option String :=
  (phrases.find? fun p => p.phraseKey == phraseKey).map fun p => p.template

/-- `announceBarcodeResult(deviceId, result)` with the Home Assistant call's
outcome injected as `haPlay`: an unknown or unapproved device yields
`(announced := false, message := none)`; a missing template likewise; otherwise
the message is generated from the selected template, and dispatched only when
the device has a speaker entity — a failing dispatch still returns the message
with `announced := false`. The outer `try/catch` makes the function total. -/
def announceBarcodeResult (devicesDb : List Device) (phrases : List TtsPhrase)
    (haPlay : Except String Unit) (deviceId : String) (res : ScanOutcome) :
    AnnounceResult :=
  match devicesDb.find? fun d => d.deviceId == deviceId with
  | none => { announced := false, message := none, error := none }
  | some device =>
    if !device.isApproved then
      { announced := false, message := none, error := none }
    else
      match getTTSPhrase phrases (selectPhraseKey res) with
      | none => { announced := false, message := none, error := none }
      | some template =>
        let message := replacePlaceholders template (selectVariables res)
        match device.haSpeakerEntity with
        | some _ =>
          match haPlay with
          | .ok _ => { announced := true, message := some message, error := none }
          | .error e => { announced := false, message := some message, error := some e }
        | none => { announced := false, message := some message, error := none }

/-- Claim C9: `announceBarcodeResult` never raises (it is total, every failure
returns a result object): an unknown device and an unapproved device both yield
`(announced := false, message := none)`, and when the Home Assistant dispatch to
the device's speaker fails, the message generated from the selected phrase
template is still returned with `announced := false`. -/
theorem announceBarcodeResult_degrades (devicesDb : List Device)
    (phrases : List TtsPhrase) (deviceId : String) (res : ScanOutcome)
    (d : Device) (tpl : String) (e : String) :
    (devicesDb.find? (fun d => d.deviceId == deviceId) = none →
        ∀ haPlay, announceBarcodeResult devicesDb phrases haPlay deviceId res =
          { announced := false, message := none, error := none }) ∧
    (devicesDb.find? (fun d => d.deviceId == deviceId) = some d →
        d.isApproved = false →
        ∀ haPlay, announceBarcodeResult devicesDb phrases haPlay deviceId res =
          { announced := false, message := none, error := none }) ∧
    (devicesDb.find? (fun d => d.deviceId == deviceId) = some d →
        d.isApproved = true →
        d.haSpeakerEntity.isSome = true →
        getTTSPhrase phrases (selectPhraseKey res) = some tpl →
        announceBarcodeResult devicesDb phrases (.error e) deviceId res =
          { announced := false
            message := some (replacePlaceholders tpl (selectVariables res))
            error := some e }) := by
  refine ⟨?_, ?_, ?_⟩
  · intro hfind haPlay
    simp [announceBarcodeResult, hfind]
  · intro hfind hnapp haPlay
    simp [announceBarcodeResult, hfind, hnapp]
  · intro hfind happ hspeaker htpl
    cases hsp : d.haSpeakerEntity with
    | none => rw [hsp] at hspeaker; exact Bool.noConfusion hspeaker
    | some ent =>
      simp [announceBarcodeResult, hfind, happ, htpl, hsp]

/-- Witness for C9 at a concrete input: an approved device with a speaker, the
seeded `success` template, and a failing Home Assistant call — the substituted
message is still returned unannounced; and an unapproved device yields the null
result. -/
theorem announceBarcodeResult_degrades_witness :
    announceBarcodeResult
        [{ id := 1, deviceId := "pi-kitchen", friendlyName := some "Kitchen"
           deviceType := "barcode_scanner", authToken := "tok"
           isApproved := true, haSpeakerEntity := some "media_player.kitchen"
           usbDevicePath := none, lastSeen := none, status := "approved"
           createdAt := 0 }]
        [{ id := 1, phraseKey := "success"
           template := "\x7b\x7bitemName\x7d\x7d added to the shopping list"
           createdAt := 0 }]
        (.error "connect ECONNREFUSED") "pi-kitchen"
        { success := true
          item := some { id := 9, name := "Milk", quantity := none, notes := none
                         relatedTo := none, categoryId := none, isCompleted := false
                         isProcessing := false, completedAt := none, sortOrder := 0
                         addedBy := none, barcode := none, wasScanned := false
                         createdAt := 0, updatedAt := 0 }
          error := none } =
      { announced := false, message := some "Milk added to the shopping list"
        error := some "connect ECONNREFUSED" } ∧
    announceBarcodeResult
        [{ id := 1, deviceId := "pi-kitchen", friendlyName := none
           deviceType := "barcode_scanner", authToken := "tok"
           isApproved := false, haSpeakerEntity := none
           usbDevicePath := none, lastSeen := none, status := "pending"
           createdAt := 0 }]
        [] (.ok ()) "pi-kitchen"
        { success := false, item := none, error := some "Product not found" } =
      { announced := false, message := none, error := none } := by
  constructor
  · have h := announceBarcodeResult_degrades
      [{ id := 1, deviceId := "pi-kitchen", friendlyName := some "Kitchen"
         deviceType := "barcode_scanner", authToken := "tok"
         isApproved := true, haSpeakerEntity := some "media_player.kitchen"
         usbDevicePath := none, lastSeen := none, status := "approved"
         createdAt := 0 }]
      [{ id := 1, phraseKey := "success"
         template := "\x7b\x7bitemName\x7d\x7d added to the shopping list"
         createdAt := 0 }]
      "pi-kitchen"
      { success := true
        item := some { id := 9, name := "Milk", quantity := none, notes := none
                       relatedTo := none, categoryId := none, isCompleted := false
                       isProcessing := false, completedAt := none, sortOrder := 0
                       addedBy := none, barcode := none, wasScanned := false
                       createdAt := 0, updatedAt := 0 }
        error := none }
      { id := 1, deviceId := "pi-kitchen", friendlyName := some "Kitchen"
        deviceType := "barcode_scanner", authToken := "tok"
        isApproved := true, haSpeakerEntity := some "media_player.kitchen"
        usbDevicePath := none, lastSeen := none, status := "approved"
        createdAt := 0 }
      "\x7b\x7bitemName\x7d\x7d added to the shopping list"
      "connect ECONNREFUSED"
    have hres := h.2.2 (by decide) (by decide) (by decide) (by decide)
    rw [hres]
    decide
  · have h := announceBarcodeResult_degrades
      [{ id := 1, deviceId := "pi-kitchen", friendlyName := none
         deviceType := "barcode_scanner", authToken := "tok"
         isApproved := false, haSpeakerEntity := none
         usbDevicePath := none, lastSeen := none, status := "pending"
         createdAt := 0 }]
      [] "pi-kitchen"
      { success := false, item := none, error := some "Product not found" }
      { id := 1, deviceId := "pi-kitchen", friendlyName := none
        deviceType := "barcode_scanner", authToken := "tok"
        isApproved := false, haSpeakerEntity := none
        usbDevicePath := none, lastSeen := none, status := "pending"
        createdAt := 0 }
      "" ""
    exact h.2.1 (by decide) (by decide) (.ok ())

/-! ## Device event logging (`backend/services/deviceEvents.js`) -/

/-- The comparator realizing `ORDER BY created_at DESC`. -/
def evLe (a b : DeviceEvent) : Bool :=
  decide (b.createdAt ≤ a.createdAt)

/-- `WHERE device_id = d` on the `device_events` table. -/
def eventsForDevice (d : Nat) (evs : List DeviceEvent) : List DeviceEvent :=
  evs.filter fun e => e.deviceId == d

/-- The id set selected by
`SELECT id FROM device_events WHERE device_id = d ORDER BY created_at DESC LIMIT keepCount`. -/
def topIds (d : Nat) (keepCount : Nat) (evs : List DeviceEvent) : List Nat :=
  (((eventsForDevice d evs).mergeSort evLe).take keepCount).map fun e => e.id

/-- `cleanupOldEvents(deviceId, keepCount)`: delete every event of the device
whose id is not among its `keepCount` most recently created rows. -/
def cleanupOldEvents (d : Nat) (keepCount : Nat) (evs : List DeviceEvent) :
    List DeviceEvent :=
  evs.filter fun e => !(e.deviceId == d && !(decide (e.id ∈ topIds d keepCount evs)))

/-- The row inserted by `logDeviceEvent`. -/
def mkDeviceEvent (d : Nat) (eventType message : String) (metadata : Option String)
    (nextId : Nat) (now : Int) : DeviceEvent :=
  { id := nextId, deviceId := d, eventType := eventType, message := message,
    metadata := metadata, createdAt := now }

/-- `logDeviceEvent(deviceId, eventType, message, metadata)`: insert the event
row, then prune the device's history to its 100 most recent rows. -/
def logDeviceEvent (d : Nat) (eventType message : String) (metadata : Option String)
    (nextId : Nat) (now : Int) (evs : List DeviceEvent) : List DeviceEvent :=
  cleanupOldEvents d 100 (evs ++ [mkDeviceEvent d eventType message metadata nextId now])

theorem evLe_trans (a b c : DeviceEvent) :
    evLe a b = true → evLe b c = true → evLe a c = true := by
  simp only [evLe, decide_eq_true_eq]
  omega

theorem evLe_total (a b : DeviceEvent) : (evLe a b || evLe b a) = true := by
  simp only [evLe, Bool.or_eq_true, decide_eq_true_eq]
  omega

/-- Core pruning lemma: filtering a list of events (with pairwise distinct ids
and creation times) down to the ids of the first `k` elements of its
`created_at`-descending sort keeps `min length k` rows, keeps only original
rows, and every removed row is strictly older than every kept row. -/
theorem kept_most_recent (k : Nat) (l : List DeviceEvent)
    (hpw : l.Pairwise fun a b => a.id ≠ b.id ∧ a.createdAt ≠ b.createdAt) :
    ((l.filter fun e => decide (e.id ∈ ((l.mergeSort evLe).take k).map fun e => e.id)).length
        = min l.length k) ∧
    (∀ e ∈ (l.filter fun e => decide (e.id ∈ ((l.mergeSort evLe).take k).map fun e => e.id)),
        e ∈ l) ∧
    (∀ e ∈ (l.filter fun e => decide (e.id ∈ ((l.mergeSort evLe).take k).map fun e => e.id)),
        ∀ f ∈ l,
          f ∉ (l.filter fun e => decide (e.id ∈ ((l.mergeSort evLe).take k).map fun e => e.id)) →
          f.createdAt < e.createdAt) := by
  set s := l.mergeSort evLe with hs
  set K := (s.take k).map (fun e => e.id) with hK
  set kept := l.filter fun e => decide (e.id ∈ K) with hkept
  have hperm : s.Perm l := List.mergeSort_perm l evLe
  have hsorted : s.Pairwise fun a b => evLe a b = true :=
    List.sorted_mergeSort evLe_trans evLe_total l
  have hpws : s.Pairwise fun a b => a.id ≠ b.id ∧ a.createdAt ≠ b.createdAt :=
    (List.Perm.pairwise_iff (fun {_ _} h => ⟨h.1.symm, h.2.symm⟩) hperm).mpr hpw
  have hstrict : s.Pairwise fun a b => b.createdAt < a.createdAt := by
    have hand := hsorted.and hpws
    refine hand.imp ?_
    rintro a b ⟨hle, -, hne⟩
    simp only [evLe, decide_eq_true_eq] at hle
    omega
  have hids : s.Pairwise fun a b => a.id ≠ b.id := hpws.imp fun h => h.1
  have hsplit : s.take k ++ s.drop k = s := List.take_append_drop k s
  have hsep : ∀ a ∈ s.take k, ∀ b ∈ s.drop k, b.createdAt < a.createdAt := by
    have h := hstrict
    rw [← hsplit] at h
    exact (List.pairwise_append.mp h).2.2
  have hidsep : ∀ a ∈ s.take k, ∀ b ∈ s.drop k, a.id ≠ b.id := by
    have h := hids
    rw [← hsplit] at h
    exact (List.pairwise_append.mp h).2.2
  have hAmem : ∀ e ∈ s, (decide (e.id ∈ K) = true ↔ e ∈ s.take k) := by
    intro e he
    constructor
    · intro hdec
      have hidK : e.id ∈ K := of_decide_eq_true hdec
      rw [hK] at hidK
      obtain ⟨a, ha, haid⟩ := List.mem_map.mp hidK
      rw [← hsplit] at he
      rcases List.mem_append.mp he with htake | hdrop
      · exact htake
      · exact absurd haid (hidsep a ha e hdrop)
    · intro htake
      exact decide_eq_true (hK ▸ List.mem_map.mpr ⟨e, htake, rfl⟩)
  have hkp : kept.Perm (s.filter fun e => decide (e.id ∈ K)) :=
    (hperm.filter _).symm
  have h1 : (s.take k).filter (fun e => decide (e.id ∈ K)) = s.take k := by
    rw [List.filter_eq_self]
    intro e he
    exact (hAmem e (List.take_subset k s he)).mpr he
  have h2 : (s.drop k).filter (fun e => decide (e.id ∈ K)) = [] := by
    rw [List.filter_eq_nil_iff]
    intro e he hP
    have hin : e ∈ s.take k := (hAmem e (List.drop_subset k s he)).mp hP
    exact absurd rfl (hidsep e hin e he)
  have hsfilter : s.filter (fun e => decide (e.id ∈ K)) = s.take k := by
    conv_lhs => rw [← hsplit]
    rw [List.filter_append, h1, h2, List.append_nil]
  refine ⟨?_, ?_, ?_⟩
  · have hlen := hkp.length_eq
    rw [hsfilter, List.length_take, hperm.length_eq] at hlen
    rw [hlen]
    exact Nat.min_comm _ _
  · intro e he
    exact (List.mem_filter.mp he).1
  · intro e he f hf hfk
    have heP := List.mem_filter.mp he
    have hetake : e ∈ s.take k := (hAmem e (hperm.mem_iff.mpr heP.1)).mp heP.2
    have hfP : ¬(decide (f.id ∈ K) = true) := fun hP =>
      hfk (List.mem_filter.mpr ⟨hf, hP⟩)
    have hfs : f ∈ s := hperm.mem_iff.mpr hf
    have hfdrop : f ∈ s.drop k := by
      rw [← hsplit] at hfs
      rcases List.mem_append.mp hfs with htk | hdr
      · exact absurd ((hAmem f (by rw [← hsplit]; exact List.mem_append.mpr (Or.inl htk))).mpr htk) hfP
      · exact hdr
    exact hsep e hetake f hfdrop

/-- Claim C7: after every `logDeviceEvent` call for a device, that device
retains at most 100 `DeviceEvent` rows — exactly its 100 most recent by
creation time (every pruned row is strictly older than every retained row) —
and inserting when 100 rows exist leaves exactly 100. Creation times and ids of
the device's rows are assumed pairwise distinct, as produced by the serial id
column and successive insertion timestamps. -/
theorem logDeviceEvent_prunes (d : Nat) (eventType message : String)
    (metadata : Option String) (nextId : Nat) (now : Int) (evs : List DeviceEvent)
    (hpw : (eventsForDevice d
        (evs ++ [mkDeviceEvent d eventType message metadata nextId now])).Pairwise
        fun a b => a.id ≠ b.id ∧ a.createdAt ≠ b.createdAt) :
    (eventsForDevice d (evs ++ [mkDeviceEvent d eventType message metadata nextId now])).length
      = (eventsForDevice d evs).length + 1 ∧
    (eventsForDevice d (logDeviceEvent d eventType message metadata nextId now evs)).length
      = min ((eventsForDevice d evs).length + 1) 100 ∧
    (eventsForDevice d (logDeviceEvent d eventType message metadata nextId now evs)).length ≤ 100 ∧
    (∀ e ∈ eventsForDevice d (logDeviceEvent d eventType message metadata nextId now evs),
        e ∈ eventsForDevice d (evs ++ [mkDeviceEvent d eventType message metadata nextId now])) ∧
    (∀ e ∈ eventsForDevice d (logDeviceEvent d eventType message metadata nextId now evs),
        ∀ f ∈ eventsForDevice d (evs ++ [mkDeviceEvent d eventType message metadata nextId now]),
          f ∉ eventsForDevice d (logDeviceEvent d eventType message metadata nextId now evs) →
          f.createdAt < e.createdAt) := by
  set newEv : DeviceEvent := mkDeviceEvent d eventType message metadata nextId now with hnew
  have hlen1 : (eventsForDevice d (evs ++ [newEv])).length
      = (eventsForDevice d evs).length + 1 := by
    unfold eventsForDevice
    rw [List.filter_append]
    have hone : [newEv].filter (fun e => e.deviceId == d) = [newEv] := by
      simp [hnew, mkDeviceEvent]
    rw [hone, List.length_append]
    rfl
  have hcomm : eventsForDevice d (logDeviceEvent d eventType message metadata nextId now evs)
      = (eventsForDevice d (evs ++ [newEv])).filter
          (fun e => decide (e.id ∈ topIds d 100 (evs ++ [newEv]))) := by
    show (List.filter _ (List.filter _ (evs ++ [newEv])))
        = (List.filter _ (List.filter _ (evs ++ [newEv])))
    rw [List.filter_filter, List.filter_filter]
    apply List.filter_congr
    intro e _
    cases hdev : (e.deviceId == d) <;>
      cases hk : decide (e.id ∈ topIds d 100 (evs ++ [newEv])) <;>
        simp [hdev, hk]
  have hKeq : topIds d 100 (evs ++ [newEv])
      = ((((eventsForDevice d (evs ++ [newEv])).mergeSort evLe).take 100).map fun e => e.id) := rfl
  have hcore := kept_most_recent 100 (eventsForDevice d (evs ++ [newEv])) hpw
  rw [← hKeq] at hcore
  rw [hcomm]
  refine ⟨hlen1, ?_, ?_, hcore.2.1, hcore.2.2⟩
  · rw [hcore.1, hlen1]
  · rw [hcore.1]
    exact Nat.min_le_right _ _

/-- Witness for C7 at a concrete input: a device with two logged events receives
a third; all three survive the pruning step (`min 3 100 = 3`). -/
theorem logDeviceEvent_prunes_witness :
    (eventsForDevice 1 (logDeviceEvent 1 "scan_success" "Scanned: Milk" none 3 300
        [{ id := 1, deviceId := 1, eventType := "scan_success", message := "a"
           metadata := none, createdAt := 100 },
         { id := 2, deviceId := 1, eventType := "scan_error", message := "b"
           metadata := none, createdAt := 200 }])).length = 3 := by
  have h := logDeviceEvent_prunes 1 "scan_success" "Scanned: Milk" none 3 300
    [{ id := 1, deviceId := 1, eventType := "scan_success", message := "a"
       metadata := none, createdAt := 100 },
     { id := 2, deviceId := 1, eventType := "scan_error", message := "b"
       metadata := none, createdAt := 200 }]
    (by decide)
  rw [h.2.1]
  decide

/-! ## Barcode resolution (`backend/services/barcode.js`, `processBarcode`)
with its collaborators `backend/services/openfoodfacts.js` (`fetchProduct`,
injected as a value) and `backend/services/llm.js` (`processItem`). -/

/-- A row of the `barcodes` cache table. -/
structure BarcodeRow where
  id : Nat
  barcode : String
  fullProductName : Option String
  genericName : String
  categoryId : Option Nat
  lastUsed : Int
  source : Option String
deriving DecidableEq, Repr

/-- The `raw_data` payload stored on a pending row: either the error wrapper
`JSON.stringify({error})` or the serialized product payload. -/
inductive RawData where
  | errorWrapper (error : String)
  | payload (productName brand fullProductName : String)
deriving DecidableEq, Repr

/-- A row of the `pending_barcodes` table. -/
structure PendingRow where
  id : Nat
  barcode : String
  rawData : Option RawData
  createdAt : Int
deriving DecidableEq, Repr

/-- The value resolved by `fetchProduct`: `found:false` with an error string, or
`found:true` with the fields `processBarcode` reads (`productName`, `brand`,
`fullProductName`). -/
inductive ProductLookup where
  | failure (error : String)
  | success (productName brand fullProductName : String)
deriving DecidableEq, Repr

/-- The object produced by `normalizeItemName` when Ollama is enabled (its
catch-branch also produces one, so it is never null while enabled). -/
structure LlmNormalized where
  name : String
  quantity : Option String
  notes : Option String
deriving DecidableEq, Repr

/-- The object returned by `processItem` when Ollama is enabled. -/
structure LlmProcessed where
  name : String
  quantity : Option String
  notes : Option String
  suggestedCategory : Option String
deriving DecidableEq, Repr

/-- `processItem(itemName, existingQuantity, existingNotes)` from `llm.js`:
`null` when Ollama is disabled; otherwise merges the normalized result
(injected as `normalized` and `suggestedCat`) with the caller's quantity
(caller value wins) and notes (period-joined concatenation). -/
def processItem (enabled : Bool) (normalized : LlmNormalized)
    (suggestedCat : Option String) (itemName : String)
    (existingQuantity existingNotes : Option String) : Option LlmProcessed :=
  if !enabled then none
  else
    some { name := normalized.name
           quantity := match normalized.quantity with
                       | some q => some q
                       | none => existingQuantity
           notes := match existingNotes, normalized.notes with
                    | some en, some nn => some (en ++ ". " ++ nn)
                    | some en, none => some en
                    | none, nn => nn
           suggestedCategory := suggestedCat }

/-- The `allCategories.find(cat => cat.name.toLowerCase() ===
llmResult.suggestedCategory.toLowerCase())` step of `processBarcode`: with a
null `suggestedCategory`, the callback's `.toLowerCase()` dereference throws a
`TypeError` as soon as one category exists (an empty table never runs the
callback). -/
def jsMatchCategory (cats : List Category) (suggested : Option String) :
    Except String (Option Nat) :=
  match cats with
  | [] => .ok none
  | _ :: _ =>
    match suggested with
    | none => .error "TypeError: Cannot read properties of null"
    | some s => .ok ((cats.find? fun c => jsToLower c.name == jsToLower s).map fun c => c.id)

/-- The value returned by `processBarcode`. -/
structure BarcodeResult where
  success : Bool
  item : Item
  fullProductName : Option String
  error : Option String
deriving DecidableEq, Repr

/-- The tables touched by `processBarcode`. -/
structure BarcodeState where
  cache : List BarcodeRow
  pending : List PendingRow
  itemsDb : List Item
  cats : List Category
deriving DecidableEq, Repr

/-- The body of `processBarcode(barcode, userId, quantity, notes, relatedTo)`
from `barcode.js`, before its `catch` block. The external lookup result is
injected as `lookup`; the LLM configuration and reply as `llmEnabled`,
`normalized` and `suggestedCat`. An error value carries the state at the throw
point. Note the unguarded `llmResult.suggestedCategory` dereference: when
Ollama is disabled, `processItem` returns null and the dereference throws (for
an empty category table, `llmResult.name` at the cache insert throws instead).
-/
def processBarcodeBody (lookup : ProductLookup) (llmEnabled : Bool)
    (normalized : LlmNormalized) (suggestedCat : Option String)
    (nextPendingId nextCacheId nextItemId : Nat) (now : Int)
    (barcode : String) (userId : Option Nat)
    (quantity notes relatedTo : Option String) (st : BarcodeState) :
    Except (String × BarcodeState) (BarcodeResult × BarcodeState) :=
  match st.cache.find? fun b => b.barcode == barcode with
  | some cachedBarcode =>
    let cache' := st.cache.map fun b =>
      if b.barcode == barcode then { b with lastUsed := now } else b
    let newItem : Item :=
      { id := nextItemId, name := cachedBarcode.genericName, quantity := quantity,
        notes := notes, relatedTo := relatedTo, categoryId := cachedBarcode.categoryId,
        isCompleted := false, isProcessing := false, completedAt := none, sortOrder := 0,
        addedBy := userId, barcode := some barcode, wasScanned := true,
        createdAt := now, updatedAt := now }
    .ok ({ success := true, item := newItem,
           fullProductName := cachedBarcode.fullProductName, error := none },
         { st with cache := cache', itemsDb := st.itemsDb ++ [newItem] })
  | none =>
    let pending1 := st.pending ++
      [{ id := nextPendingId, barcode := barcode, rawData := none, createdAt := now }]
    match lookup with
    | .failure err =>
      let pending2 := pending1.map fun p =>
        if p.barcode == barcode then { p with rawData := some (.errorWrapper err) } else p
      let newItem : Item :=
        { id := nextItemId, name := "Barcode: " ++ barcode, quantity := quantity,
          notes := match notes with
                   | some n => some (n ++ ". Error: " ++ err)
                   | none => some ("Error: " ++ err),
          relatedTo := relatedTo, categoryId := none, isCompleted := false,
          isProcessing := false, completedAt := none, sortOrder := 0,
          addedBy := userId, barcode := some barcode, wasScanned := true,
          createdAt := now, updatedAt := now }
      let pending3 := pending2.filter fun p => !(p.barcode == barcode)
      .ok ({ success := false, item := newItem, fullProductName := none,
             error := some err },
           { st with pending := pending3, itemsDb := st.itemsDb ++ [newItem] })
    | .success productName brand fullProductName =>
      let pending2 := pending1.map fun p =>
        if p.barcode == barcode then
          { p with rawData := some (.payload productName brand fullProductName) }
        else p
      let fullName := jsTrim (brand ++ " " ++ productName)
      match processItem llmEnabled normalized suggestedCat fullName quantity notes with
      | none =>
        .error ("TypeError: Cannot read properties of null",
                { st with pending := pending2 })
      | some llmResult =>
        match jsMatchCategory st.cats llmResult.suggestedCategory with
        | .error e => .error (e, { st with pending := pending2 })
        | .ok categoryId =>
          let cacheRow : BarcodeRow :=
            { id := nextCacheId, barcode := barcode,
              fullProductName := some fullProductName,
              genericName := llmResult.name, categoryId := categoryId,
              lastUsed := now, source := some "openfoodfacts" }
          let pending3 := pending2.filter fun p => !(p.barcode == barcode)
          let newItem : Item :=
            { id := nextItemId, name := llmResult.name, quantity := quantity,
              notes := notes, relatedTo := relatedTo, categoryId := categoryId,
              isCompleted := false, isProcessing := false, completedAt := none,
              sortOrder := 0, addedBy := userId, barcode := some barcode,
              wasScanned := true, createdAt := now, updatedAt := now }
          .ok ({ success := true, item := newItem,
                 fullProductName := some fullProductName, error := none },
               { st with cache := st.cache ++ [cacheRow], pending := pending3,
                         itemsDb := st.itemsDb ++ [newItem] })

/-- `processBarcode` with its `catch` block: on a throw, the pending row for the
barcode is deleted (best effort) and the error is re-raised to the caller. -/
def processBarcode (lookup : ProductLookup) (llmEnabled : Bool)
    (normalized : LlmNormalized) (suggestedCat : Option String)
    (nextPendingId nextCacheId nextItemId : Nat) (now : Int)
    (barcode : String) (userId : Option Nat)
    (quantity notes relatedTo : Option String) (st : BarcodeState) :
    Except (String × BarcodeState) (BarcodeResult × BarcodeState) :=
  match processBarcodeBody lookup llmEnabled normalized suggestedCat
      nextPendingId nextCacheId nextItemId now barcode userId
      quantity notes relatedTo st with
  | .ok rs => .ok rs
  | .error (e, st') =>
    .error (e, { st' with pending := st'.pending.filter fun p => !(p.barcode == barcode) })

/-- Claim C1 (bug evaluation): on a cache miss whose external lookup succeeds,
`processBarcode` resolves the name and category through the LLM when it is
enabled, but with the LLM disabled it does not fall back to the lookup's product
name: `processItem` returns null and the unguarded
`llmResult.suggestedCategory` dereference throws a `TypeError`, so the call
raises and creates no item (the async variant `processBarcodeAsync` in the items
route has the guarded fallback this claim describes). -/
theorem processBarcode_llmDisabled_raises :
    processBarcode (.success "Milk" "Brandy" "Brandy Milk 2L") false
        { name := "", quantity := none, notes := none } none
        1 1 1 0 "12345678" none none none none
        { cache := [], pending := [], itemsDb := [],
          cats := [{ id := 1, name := "Dairy", sortOrder := 0, createdAt := 0 }] } =
      .error ("TypeError: Cannot read properties of null",
        { cache := [], pending := [], itemsDb := [],
          cats := [{ id := 1, name := "Dairy", sortOrder := 0, createdAt := 0 }] }) ∧
    processBarcode (.success "Milk" "Brandy" "Brandy Milk 2L") true
        { name := "Milk", quantity := none, notes := none } (some "Dairy")
        1 1 1 0 "12345678" none none none none
        { cache := [], pending := [], itemsDb := [],
          cats := [{ id := 1, name := "Dairy", sortOrder := 0, createdAt := 0 }] } =
      .ok ({ success := true,
             item := { id := 1, name := "Milk", quantity := none, notes := none,
                       relatedTo := none, categoryId := some 1, isCompleted := false,
                       isProcessing := false, completedAt := none, sortOrder := 0,
                       addedBy := none, barcode := some "12345678", wasScanned := true,
                       createdAt := 0, updatedAt := 0 },
             fullProductName := some "Brandy Milk 2L", error := none },
           { cache := [{ id := 1, barcode := "12345678",
                         fullProductName := some "Brandy Milk 2L",
                         genericName := "Milk", categoryId := some 1,
                         lastUsed := 0, source := some "openfoodfacts" }],
             pending := [], itemsDb :=
               [{ id := 1, name := "Milk", quantity := none, notes := none,
                  relatedTo := none, categoryId := some 1, isCompleted := false,
                  isProcessing := false, completedAt := none, sortOrder := 0,
                  addedBy := none, barcode := some "12345678", wasScanned := true,
                  createdAt := 0, updatedAt := 0 }],
             cats := [{ id := 1, name := "Dairy", sortOrder := 0, createdAt := 0 }] }) :=
  ⟨rfl, rfl⟩

/-! ## Concrete sample rows for witnesses -/

/-- A sample item row with the argument completion state; all other columns are
defaults. -/
def sampleItem (id : Nat) (done : Bool) (doneAt : Option Int) (catId : Option Nat) : Item :=
  { id := id, name := "Milk", quantity := none, notes := none, relatedTo := none,
    categoryId := catId, isCompleted := done, isProcessing := false,
    completedAt := doneAt, sortOrder := 0, addedBy := none, barcode := none,
    wasScanned := false, createdAt := 0, updatedAt := 0 }

/-- A sample category row. -/
def sampleCategory (id : Nat) (name : String) : Category :=
  { id := id, name := name, sortOrder := 0, createdAt := 0 }

/-- Witness for C4 at concrete inputs: at sweep time 0, an item completed 23
hours ago survives, an item completed 25 hours ago is deleted, an incomplete
item of any age survives, and a faulting sweep returns the table unchanged. -/
theorem cleanupCompletedItems_characterization_witness :
    sampleItem 1 true (some (-(23 * 60 * 60 * 1000))) none ∈
      cleanupCompletedItems 0
        [sampleItem 1 true (some (-(23 * 60 * 60 * 1000))) none,
         sampleItem 2 true (some (-(25 * 60 * 60 * 1000))) none,
         sampleItem 3 false none none] ∧
    sampleItem 2 true (some (-(25 * 60 * 60 * 1000))) none ∉
      cleanupCompletedItems 0
        [sampleItem 1 true (some (-(23 * 60 * 60 * 1000))) none,
         sampleItem 2 true (some (-(25 * 60 * 60 * 1000))) none,
         sampleItem 3 false none none] ∧
    sampleItem 3 false none none ∈
      cleanupCompletedItems 0
        [sampleItem 1 true (some (-(23 * 60 * 60 * 1000))) none,
         sampleItem 2 true (some (-(25 * 60 * 60 * 1000))) none,
         sampleItem 3 false none none] ∧
    cleanupCompletedItemsRun 0 true
        [sampleItem 1 true (some (-(23 * 60 * 60 * 1000))) none] =
      [sampleItem 1 true (some (-(23 * 60 * 60 * 1000))) none] := by
  refine ⟨?_, ?_, ?_, ?_⟩
  · exact cleanupCompletedItems_characterization.2.2.1 0 _ _ (by decide) (by decide)
      (by decide)
  · exact cleanupCompletedItems_characterization.2.2.2.1 0 _ _ (by decide) (by decide)
  · exact cleanupCompletedItems_characterization.2.1 0 _ _ (by decide) (by decide)
  · exact cleanupCompletedItems_characterization.2.2.2.2 0 _

/-- Witness for C5 at concrete inputs: deleting a referenced category answers
400 and keeps the table; deleting an unreferenced existing category answers 200
and removes it. -/
theorem deleteCategoryRoute_characterization_witness :
    (deleteCategoryRoute 1 [sampleCategory 1 "Dairy"] [sampleItem 9 false none (some 1)]).1 = 400 ∧
    (deleteCategoryRoute 1 [sampleCategory 1 "Dairy"] [sampleItem 9 false none (some 1)]).2 =
      [sampleCategory 1 "Dairy"] ∧
    (deleteCategoryRoute 2 [sampleCategory 1 "Dairy", sampleCategory 2 "Bakery"]
        [sampleItem 9 false none (some 1)]).1 = 200 ∧
    (∀ c ∈ (deleteCategoryRoute 2 [sampleCategory 1 "Dairy", sampleCategory 2 "Bakery"]
        [sampleItem 9 false none (some 1)]).2, c.id ≠ 2) := by
  have h1 := deleteCategoryRoute_characterization 1 [sampleCategory 1 "Dairy"]
    [sampleItem 9 false none (some 1)]
  have h2 := deleteCategoryRoute_characterization 2
    [sampleCategory 1 "Dairy", sampleCategory 2 "Bakery"]
    [sampleItem 9 false none (some 1)]
  have h400 := h1.1.mpr ⟨sampleItem 9 false none (some 1), by decide, by decide⟩
  have hsucc := h2.2.2 (by decide) ⟨sampleCategory 2 "Bakery", by decide, by decide⟩
  exact ⟨h400, h1.2.1 h400, hsucc.1, hsucc.2.1⟩

/-- Witness for C8 at concrete inputs: an 8-digit string is a barcode; a 9-digit
string, a string with a non-digit, and a non-string are not. -/
theorem isBarcode_characterization_witness :
    isBarcode (.str "12345678") = true ∧
    isBarcode (.str "123456789") = false ∧
    isBarcode (.str "12a45678") = false ∧
    isBarcode .nonString = false := by
  refine ⟨?_, ?_, ?_, isBarcode_characterization.2.1⟩
  · exact (isBarcode_characterization.1 "12345678").mpr (by decide)
  · exact isBarcode_characterization.2.2.1 "123456789" (by decide) (by decide)
  · exact isBarcode_characterization.2.2.2 "12a45678" ⟨'a', by decide, by decide⟩

end ShoppingList
